import Mathlib

/-!
Verification development for the communication triage server.

The repository contains two variants of the Express server:
* `src/server.js` — the single-user server (namespace `ServerJS` below);
* `src/unnamed/part_001` — the multi-user server (namespace `MultiUser` below).

Shared helper functions (`parseSenderName`, `extractEmailHeaders`,
`createGmailLink`, `createSlackLink`, `verifySlackSignature`) are character
for character identical in both files and are defined once at top level.

Platform primitives used by the code (Node `crypto.createHmac('sha256',...)`,
`crypto.timingSafeEqual`, `Buffer.from`, `JSON.stringify`, `JSON.parse` via
`express.json()`, and `parseInt`) are modelled executably below, following
their standard documented semantics.  Machine integers are `Nat` with
explicit `% 2^32` where SHA-256 overflow matters.  JavaScript string
`.length`/`.substring` are modelled with Lean `String.length`/`String.take`,
which agree for the basic-multilingual-plane strings the claims exercise.
-/

/-! ### JavaScript string and number primitives -/

/-- Whitespace as used by `String.prototype.trim`, regex `\s`, and `parseInt`
(restricted to the ASCII whitespace the inputs here can contain). -/
def jsSpace (c : Char) : Bool :=
  c = ' ' || c = '\t' || c = '\n' || c = '\r'

/-- `String.prototype.toLowerCase` for the ASCII range (header names here
are ASCII; Lean's own `String.toLower` is opaque to kernel reduction). -/
def jsLowerChar (c : Char) : Char :=
  if 'A' ≤ c ∧ c ≤ 'Z' then Char.ofNat (c.toNat + 32) else c

def jsToLower (s : String) : String :=
  String.mk (s.toList.map jsLowerChar)

/-- `String.prototype.trim` (ASCII whitespace). -/
def jsTrim (s : String) : String :=
  String.mk (((s.toList.dropWhile jsSpace).reverse.dropWhile jsSpace).reverse)

/-- JavaScript `.length` (UTF-16 units; equal to the codepoint count for the
basic-multilingual-plane strings exercised here). -/
def jsLength (s : String) : Nat :=
  s.toList.length

/-- JavaScript `.substring(0, n)`. -/
def jsSubstring (s : String) (n : Nat) : String :=
  String.mk (s.toList.take n)

/-- UTF-8 encoding of a single character (`Buffer.from(string)` uses UTF-8). -/
def utf8Char (c : Char) : List Nat :=
  let n := c.toNat
  if n < 128 then [n]
  else if n < 2048 then [192 + n / 64, 128 + n % 64]
  else if n < 65536 then [224 + n / 4096, 128 + (n / 64) % 64, 128 + n % 64]
  else [240 + n / 262144, 128 + (n / 4096) % 64, 128 + (n / 64) % 64, 128 + n % 64]

/-- UTF-8 encoding of a character list. -/
def utf8List : List Char → List Nat
  | [] => []
  | c :: cs => utf8Char c ++ utf8List cs

/-- The byte content of `Buffer.from(s)` for a string `s`. -/
def utf8Bytes (s : String) : List Nat :=
  utf8List s.toList

/-- Value of a decimal digit character, if it is one. -/
def decDigit (c : Char) : Option Nat :=
  if '0' ≤ c ∧ c ≤ '9' then some (c.toNat - 48) else none

/-- Value of a hexadecimal digit character, if it is one. -/
def hexDigitVal (c : Char) : Option Nat :=
  if '0' ≤ c ∧ c ≤ '9' then some (c.toNat - 48)
  else if 'a' ≤ c ∧ c ≤ 'f' then some (c.toNat - 87)
  else if 'A' ≤ c ∧ c ≤ 'F' then some (c.toNat - 55)
  else none

/-- Fold the longest prefix of digits of the given base; `none` if empty. -/
def parseDigitsWith (digit : Char → Option Nat) (base : Nat) (cs : List Char) :
    Option Nat :=
  let ds := cs.takeWhile (fun c => (digit c).isSome)
  if ds = [] then none
  else some (ds.foldl (fun a c => a * base + ((digit c).getD 0)) 0)

/-- JavaScript `parseInt(s)` (default radix): skip leading whitespace, optional
sign, then either a `0x`/`0X` hexadecimal literal or decimal digits, ignoring
any trailing garbage; `none` models `NaN`. -/
def parseIntJs (s : String) : Option Int :=
  let cs := s.toList.dropWhile jsSpace
  let signed : List Char → Bool × List Char := fun l =>
    match l with
    | '-' :: rest => (true, rest)
    | '+' :: rest => (false, rest)
    | rest => (false, rest)
  let (neg, rest) := signed cs
  let mag : Option Nat :=
    match rest with
    | '0' :: 'x' :: r => parseDigitsWith hexDigitVal 16 r
    | '0' :: 'X' :: r => parseDigitsWith hexDigitVal 16 r
    | r => parseDigitsWith decDigit 10 r
  mag.map (fun n => if neg then -(n : Int) else (n : Int))

/-! ### SHA-256 and HMAC (Node `crypto.createHmac('sha256', key)`) -/

/-- Truncation to a 32-bit word. -/
def w32 (x : Nat) : Nat := x % 4294967296

/-- 32-bit right rotation. -/
def rotr (n x : Nat) : Nat := w32 ((x >>> n) ||| (x <<< (32 - n)))

def sha256Ch (x y z : Nat) : Nat := (x &&& y) ^^^ ((x ^^^ 4294967295) &&& z)

def sha256Maj (x y z : Nat) : Nat := (x &&& y) ^^^ (x &&& z) ^^^ (y &&& z)

def bigSigma0 (x : Nat) : Nat := rotr 2 x ^^^ rotr 13 x ^^^ rotr 22 x

def bigSigma1 (x : Nat) : Nat := rotr 6 x ^^^ rotr 11 x ^^^ rotr 25 x

def smallSigma0 (x : Nat) : Nat := rotr 7 x ^^^ rotr 18 x ^^^ (x >>> 3)

def smallSigma1 (x : Nat) : Nat := rotr 17 x ^^^ rotr 19 x ^^^ (x >>> 10)

/-- SHA-256 round constants (FIPS 180-4, in decimal). -/
def sha256K : List Nat :=
  [1116352408, 1899447441, 3049323471, 3921009573, 961987163,
   1508970993, 2453635748, 2870763221, 3624381080, 310598401,
   607225278, 1426881987, 1925078388, 2162078206, 2614888103,
   3248222580, 3835390401, 4022224774, 264347078, 604807628,
   770255983, 1249150122, 1555081692, 1996064986, 2554220882,
   2821834349, 2952996808, 3210313671, 3336571891, 3584528711,
   113926993, 338241895, 666307205, 773529912, 1294757372,
   1396182291, 1695183700, 1986661051, 2177026350, 2456956037,
   2730485921, 2820302411, 3259730800, 3345764771, 3516065817,
   3600352804, 4094571909, 275423344, 430227734, 506948616,
   659060556, 883997877, 958139571, 1322822218, 1537002063,
   1747873779, 1955562222, 2024104815, 2227730452, 2361852424,
   2428436474, 2756734187, 3204031479, 3329325298]

/-- SHA-256 working state (eight 32-bit words). -/
structure Sha256State where
  a : Nat
  b : Nat
  c : Nat
  d : Nat
  e : Nat
  f : Nat
  g : Nat
  h : Nat
deriving Repr, DecidableEq

def sha256Init : Sha256State :=
  ⟨1779033703, 3144134277, 1013904242, 2773480762,
   1359893119, 2600822924, 528734635, 1541459225⟩

/-- Big-endian 32-bit words from a byte list. -/
def bytesToWords : List Nat → List Nat
  | b0 :: b1 :: b2 :: b3 :: rest =>
      (b0 * 16777216 + b1 * 65536 + b2 * 256 + b3) :: bytesToWords rest
  | _ => []

/-- Extend the 16 message words to the 64-entry schedule. -/
def sha256Schedule (ws : List Nat) : List Nat :=
  (List.range 48).foldl
    (fun acc _ =>
      let n := acc.length
      acc ++ [w32 (smallSigma1 (acc.getD (n - 2) 0) + acc.getD (n - 7) 0 +
                   smallSigma0 (acc.getD (n - 15) 0) + acc.getD (n - 16) 0)])
    ws

/-- One SHA-256 round; `kw` is the round constant plus schedule word. -/
def sha256Round (st : Sha256State) (kw : Nat) : Sha256State :=
  let t1 := w32 (st.h + bigSigma1 st.e + sha256Ch st.e st.f st.g + kw)
  let t2 := w32 (bigSigma0 st.a + sha256Maj st.a st.b st.c)
  ⟨w32 (t1 + t2), st.a, st.b, st.c, w32 (st.d + t1), st.e, st.f, st.g⟩

/-- Compression of one 64-byte block. -/
def sha256Compress (st0 : Sha256State) (block : List Nat) : Sha256State :=
  let ws := sha256Schedule (bytesToWords block)
  let kws := (sha256K.zip ws).map (fun p => w32 (p.1 + p.2))
  let st := kws.foldl sha256Round st0
  ⟨w32 (st0.a + st.a), w32 (st0.b + st.b), w32 (st0.c + st.c),
   w32 (st0.d + st.d), w32 (st0.e + st.e), w32 (st0.f + st.f),
   w32 (st0.g + st.g), w32 (st0.h + st.h)⟩

/-- Merkle–Damgård padding: `0x80`, zeros, 64-bit big-endian bit length. -/
def sha256Pad (msg : List Nat) : List Nat :=
  let len := msg.length
  let bitLen := len * 8
  let padZeros := (119 - len % 64) % 64
  msg ++ [128] ++ List.replicate padZeros 0 ++
    [(bitLen / 72057594037927936) % 256, (bitLen / 281474976710656) % 256,
     (bitLen / 1099511627776) % 256, (bitLen / 4294967296) % 256,
     (bitLen / 16777216) % 256, (bitLen / 65536) % 256,
     (bitLen / 256) % 256, bitLen % 256]

/-- Iterate the compression over the 64-byte blocks (fuelled recursion; the
fuel is always at least the number of blocks). -/
def sha256Blocks : Nat → Sha256State → List Nat → Sha256State
  | 0, st, _ => st
  | _, st, [] => st
  | fuel + 1, st, l => sha256Blocks fuel (sha256Compress st (l.take 64)) (l.drop 64)

/-- Big-endian bytes of one 32-bit word. -/
def wordBytes (x : Nat) : List Nat :=
  [(x / 16777216) % 256, (x / 65536) % 256, (x / 256) % 256, x % 256]

/-- Digest bytes of a final state. -/
def sha256Digest (st : Sha256State) : List Nat :=
  wordBytes st.a ++ wordBytes st.b ++ wordBytes st.c ++ wordBytes st.d ++
  wordBytes st.e ++ wordBytes st.f ++ wordBytes st.g ++ wordBytes st.h

/-- SHA-256 of a byte list. -/
def sha256 (msg : List Nat) : List Nat :=
  let padded := sha256Pad msg
  sha256Digest (sha256Blocks padded.length sha256Init padded)

/-- HMAC-SHA256 (RFC 2104), as produced by Node
`crypto.createHmac('sha256', key).update(msg)`. -/
def hmacSha256 (key msg : List Nat) : List Nat :=
  let k0 := if key.length > 64 then sha256 key else key
  let kp := k0 ++ List.replicate (64 - k0.length) 0
  sha256 ((kp.map (fun b => b ^^^ 92)) ++
          sha256 ((kp.map (fun b => b ^^^ 54)) ++ msg))

/-- Lowercase hexadecimal digit for a value below 16. -/
def hexDigit (n : Nat) : Char :=
  Char.ofNat (if n < 10 then 48 + n else 87 + n)

/-- Lowercase hexadecimal rendering of a byte list (`.digest('hex')`). -/
def hexOfBytes (bs : List Nat) : String :=
  String.mk (bs.foldr (fun b acc => hexDigit (b / 16) :: hexDigit (b % 16) :: acc) [])

/-! ### JSON values (`req.body`), `JSON.stringify`, `JSON.parse` -/

/-- Parsed JSON values, the shape of `req.body` after `express.json()`.
Objects are association lists in document order; `JSON.parse` keeps the last
of duplicate keys, which `jget` below respects.  Only integer numerals are
modelled (no request field the claims touch is fractional). -/
inductive Json where
  | null : Json
  | bool : Bool → Json
  | num : Int → Json
  | str : String → Json
  | arr : List Json → Json
  | obj : List (String × Json) → Json
deriving Repr

/-- `JSON.stringify` escaping for one string character. -/
def jsEscapeChar (c : Char) : List Char :=
  if c = '"' then ['\\', '"']
  else if c = '\\' then ['\\', '\\']
  else if c = '\n' then ['\\', 'n']
  else if c = '\t' then ['\\', 't']
  else if c = '\r' then ['\\', 'r']
  else if c.toNat = 8 then ['\\', 'b']
  else if c.toNat = 12 then ['\\', 'f']
  else if c.toNat < 32 then
    ['\\', 'u', '0', '0', hexDigit (c.toNat / 16), hexDigit (c.toNat % 16)]
  else [c]

/-- `JSON.stringify` rendering of a string literal. -/
def jsQuote (s : String) : String :=
  "\"" ++ String.mk (s.toList.foldr (fun c acc => jsEscapeChar c ++ acc) []) ++ "\""

mutual

/-- `JSON.stringify(v)` (no replacer/indent), as called by
`verifySlackSignature` on `req.body`. -/
def stringify : Json → String
  | Json.null => "null"
  | Json.bool true => "true"
  | Json.bool false => "false"
  | Json.num n => toString n
  | Json.str s => jsQuote s
  | Json.arr xs => "[" ++ stringifyElems xs ++ "]"
  | Json.obj fs => "\x7b" ++ stringifyFields fs ++ "\x7d"

def stringifyElems : List Json → String
  | [] => ""
  | [x] => stringify x
  | x :: xs => stringify x ++ "," ++ stringifyElems xs

def stringifyFields : List (String × Json) → String
  | [] => ""
  | [(k, v)] => jsQuote k ++ ":" ++ stringify v
  | (k, v) :: fs => jsQuote k ++ ":" ++ stringify v ++ "," ++ stringifyFields fs

end

mutual

/-- JavaScript `String(v)` conversion, used for template literals. -/
def jsToString : Json → String
  | Json.null => "null"
  | Json.bool true => "true"
  | Json.bool false => "false"
  | Json.num n => toString n
  | Json.str s => s
  | Json.arr xs => jsArrToString xs
  | Json.obj _ => "[object Object]"

/-- `Array.prototype.toString`: elements joined by commas, `null` as empty. -/
def jsArrToString : List Json → String
  | [] => ""
  | [Json.null] => ""
  | [x] => jsToString x
  | Json.null :: xs => "," ++ jsArrToString xs
  | x :: xs => jsToString x ++ "," ++ jsArrToString xs

end

/-- Last-wins association-list lookup (duplicate keys in `JSON.parse`). -/
def jgetFields : List (String × Json) → String → Option Json
  | [], _ => none
  | (k', v) :: rest, k =>
      match jgetFields rest k with
      | some r => some r
      | none => if k' = k then some v else none

/-- JavaScript property read `o[k]`: `none` models `undefined` (also for
optional chaining on non-objects). -/
def jget : Json → String → Option Json
  | Json.obj fs, k => jgetFields fs k
  | _, _ => none

/-- `o?.[k]` on an optional value. -/
def jget2 (o : Option Json) (k : String) : Option Json :=
  o.bind (fun j => jget j k)

/-- JavaScript truthiness of a possibly-`undefined` value. -/
def jsTruthy : Option Json → Bool
  | none => false
  | some Json.null => false
  | some (Json.bool b) => b
  | some (Json.num n) => n ≠ 0
  | some (Json.str s) => s ≠ ""
  | some (Json.arr _) => true
  | some (Json.obj _) => true

/-- Strict-equality test `o === 'lit'` against a string literal. -/
def jsStrEq (o : Option Json) (lit : String) : Bool :=
  match o with
  | some (Json.str s) => s = lit
  | _ => false

/-- `${x}` rendering of a possibly-`undefined` value in a template literal. -/
def jsDisplay : Option Json → String
  | none => "undefined"
  | some j => jsToString j

/-! #### A JSON parser (`express.json()` body parsing / `JSON.parse`)

Fuelled recursive-descent parser for the JSON fragment the requests use:
whitespace, `null`/`true`/`false`, integer numerals, strings with the
common escapes, arrays and objects.  Inputs outside this fragment (e.g.
fractional numbers) fail to parse rather than mis-parse. -/

def jsonSkipWs (cs : List Char) : List Char :=
  cs.dropWhile jsSpace

/-- Parse the remainder of a string literal after the opening quote. -/
def parseJsonString : Nat → List Char → Option (String × List Char)
  | 0, _ => none
  | _, [] => none
  | fuel + 1, c :: rest =>
      if c = '"' then some ("", rest)
      else if c = '\\' then
        match rest with
        | e :: rest' =>
            let dec : Option Char :=
              if e = '"' then some '"'
              else if e = '\\' then some '\\'
              else if e = '/' then some '/'
              else if e = 'n' then some '\n'
              else if e = 't' then some '\t'
              else if e = 'r' then some '\r'
              else if e = 'b' then some (Char.ofNat 8)
              else if e = 'f' then some (Char.ofNat 12)
              else none
            match dec with
            | some d =>
                (parseJsonString fuel rest').map (fun p => (String.mk (d :: p.1.toList), p.2))
            | none => none
        | [] => none
      else
        (parseJsonString fuel rest).map (fun p => (String.mk (c :: p.1.toList), p.2))

mutual

def parseJsonVal : Nat → List Char → Option (Json × List Char)
  | 0, _ => none
  | fuel + 1, cs =>
      match jsonSkipWs cs with
      | 'n' :: 'u' :: 'l' :: 'l' :: r => some (Json.null, r)
      | 't' :: 'r' :: 'u' :: 'e' :: r => some (Json.bool true, r)
      | 'f' :: 'a' :: 'l' :: 's' :: 'e' :: r => some (Json.bool false, r)
      | '"' :: r => (parseJsonString fuel r).map (fun p => (Json.str p.1, p.2))
      | '[' :: r =>
          (match jsonSkipWs r with
           | ']' :: r' => some (Json.arr [], r')
           | _ => (parseJsonElems fuel r).map (fun p => (Json.arr p.1, p.2)))
      | '\x7b' :: r =>
          (match jsonSkipWs r with
           | '\x7d' :: r' => some (Json.obj [], r')
           | _ => (parseJsonFields fuel r).map (fun p => (Json.obj p.1, p.2)))
      | '-' :: r =>
          (parseDigitsWith decDigit 10 r).bind (fun n =>
            some (Json.num (-(n : Int)), r.dropWhile (fun c => (decDigit c).isSome)))
      | c :: r =>
          if (decDigit c).isSome then
            (parseDigitsWith decDigit 10 (c :: r)).bind (fun n =>
              some (Json.num (n : Int), (c :: r).dropWhile (fun c => (decDigit c).isSome)))
          else none
      | [] => none

/-- Comma-separated array elements up to the closing bracket. -/
def parseJsonElems : Nat → List Char → Option (List Json × List Char)
  | 0, _ => none
  | fuel + 1, cs =>
      (parseJsonVal fuel cs).bind (fun p =>
        match jsonSkipWs p.2 with
        | ',' :: r => (parseJsonElems fuel r).map (fun q => (p.1 :: q.1, q.2))
        | ']' :: r => some ([p.1], r)
        | _ => none)

/-- Comma-separated object members up to the closing brace. -/
def parseJsonFields : Nat → List Char → Option (List (String × Json) × List Char)
  | 0, _ => none
  | fuel + 1, cs =>
      match jsonSkipWs cs with
      | '"' :: r =>
          (parseJsonString fuel r).bind (fun kp =>
            match jsonSkipWs kp.2 with
            | ':' :: r' =>
                (parseJsonVal fuel r').bind (fun vp =>
                  match jsonSkipWs vp.2 with
                  | ',' :: r'' =>
                      (parseJsonFields fuel r'').map (fun q => ((kp.1, vp.1) :: q.1, q.2))
                  | '\x7d' :: r'' => some ([(kp.1, vp.1)], r'')
                  | _ => none)
            | _ => none)
      | _ => none

end

/-- `JSON.parse(s)`: parse one value and require only whitespace after it. -/
def jsonParse (s : String) : Option Json :=
  (parseJsonVal (s.length + 4) s.toList).bind (fun p =>
    if jsonSkipWs p.2 = [] then some p.1 else none)

/-! ### The `pending_actions` table

One row type covers both servers: the table (see `supabase-migration.sql`)
has the original columns (`task_text`, `platform_tag`, `sender_name`,
`message_link`, `user_id`) and the columns the migration added (`sender`,
`summary`, `url`, `platform`, `message_id`).  Every column is nullable;
each server fills only its own columns and leaves the rest `none`.
Generated columns (`id`) are omitted; `created_at` is kept as the string
the single-user server writes. -/
structure PendingAction where
  sender : Option String := none
  summary : Option String := none
  url : Option String := none
  platform : Option String := none
  message_id : Option String := none
  task_text : Option String := none
  platform_tag : Option String := none
  sender_name : Option String := none
  message_link : Option String := none
  user_id : Option String := none
  created_at : Option String := none
deriving Repr, DecidableEq

/-- Outcome of `saveToSupabase`: `{skipped:true, reason}` or an insert. -/
inductive SaveResult where
  | skipped : String → SaveResult
  | saved : SaveResult
deriving Repr, DecidableEq

/-- The arguments object of `saveToSupabase` (multi-user form; the
single-user server passes the same fields minus `user_id`). -/
structure SaveInput where
  sender : String
  summary : String
  url : String
  platform : String
  messageId : String
  user_id : String := ""
deriving Repr, DecidableEq

/-! ### Helpers shared verbatim by both servers -/

def createGmailLink (messageId : String) : String :=
  "https://mail.google.com/mail/u/0/#inbox/" ++ messageId

def createSlackLink (teamId channelId messageTs : String) : String :=
  "https://slack.com/app_redirect?team=" ++ teamId ++ "&channel=" ++ channelId ++
    "&message_ts=" ++ messageTs

/-- A Gmail message as returned by `users.messages.get` (the fields the
servers read: `id`, `labelIds`, and the `payload.headers` name/value list). -/
structure GmailMsg where
  id : String
  labelIds : List String
  headers : List (String × String)
deriving Repr, DecidableEq

/-- The header quadruple `extractEmailHeaders` builds (`from` is a Lean
keyword, hence `fromH`). -/
structure EmailHeaders where
  fromH : String
  subject : String
  date : String
  messageId : String
deriving Repr, DecidableEq

/-- `headers.find(h => h.name.toLowerCase() === name.toLowerCase())?.value || ''`. -/
def getHeader (headers : List (String × String)) (name : String) : String :=
  ((headers.find? (fun h => jsToLower h.1 = jsToLower name)).map (fun h => h.2)).getD ""

def extractEmailHeaders (msg : GmailMsg) : EmailHeaders :=
  ⟨getHeader msg.headers "From", getHeader msg.headers "Subject",
   getHeader msg.headers "Date", getHeader msg.headers "Message-ID"⟩

/-! #### `parseSenderName` and its two regular expressions

`/^(.+?)\s*<.+>$/`: the lazy group takes the shortest non-empty prefix
(of non-newline characters) such that the remainder is whitespace followed
by `<`, at least one character, and a final `>`.  `/<(.+)>/`: the leftmost
`<` from which a greedy run reaches the last `>` of the string. -/

/-- Does `\s*<.+>$` match this entire character list?  Since `<` is not
whitespace, `\s*` must consume exactly the leading whitespace run. -/
def matchAngleRest (cs : List Char) : Bool :=
  match cs.dropWhile jsSpace with
  | '<' :: tail =>
      decide (2 ≤ tail.length) && tail.getLast? == some '>' &&
        tail.dropLast.all (fun c => c ≠ '\n')
  | _ => false

/-- Search for the lazy group of `/^(.+?)\s*<.+>$/`: accumulate the shortest
prefix (which `.` keeps newline-free) whose remainder matches `\s*<.+>$`. -/
def lazyGroupSearch : List Char → List Char → Option (List Char)
  | _, [] => none
  | acc, c :: rest =>
      if c = '\n' then none
      else
        let acc' := acc ++ [c]
        if matchAngleRest rest then some acc' else lazyGroupSearch acc' rest

/-- Greedy group of `/<(.+)>/` starting right after a `<`: the run up to the
last `>` reachable without crossing a newline, if any. -/
def greedyAngleGroup (cs : List Char) : Option (List Char) :=
  let pre := cs.takeWhile (fun c => c ≠ '\n')
  let idxs := (List.range pre.length).filter (fun i => pre.getD i ' ' = '>')
  match idxs.getLast? with
  | some i => if 1 ≤ i then some (pre.take i) else none
  | none => none

/-- Leftmost match of `/<(.+)>/`, returning the group. -/
def emailAngleMatch : List Char → Option (List Char)
  | [] => none
  | c :: rest =>
      if c = '<' then
        match greedyAngleGroup rest with
        | some g => some g
        | none => emailAngleMatch rest
      else emailAngleMatch rest

/-- `fromHeader.replace(/"/g, '')`. -/
def removeQuotes (s : String) : String :=
  String.mk (s.toList.filter (fun c => c ≠ '"'))

/-- `parseSenderName` from both servers. -/
def parseSenderName (fromHeader : String) : String :=
  if fromHeader = "" then "Unknown Sender"
  else
    match lazyGroupSearch [] fromHeader.toList with
    | some g => jsTrim (removeQuotes (String.mk g))
    | none =>
        match emailAngleMatch fromHeader.toList with
        | some g => String.mk g
        | none => fromHeader

/-! ### The single-user server (`src/server.js`) -/

namespace ServerJS

/-- `isDuplicate(messageId, platform)`: select rows with
`message_id = messageId` and `platform = platform`, true iff any exist.
(A query error returns false — "allow insert on error"; the storage model
here does not fail.) -/
def isDuplicate (store : List PendingAction) (messageId platform : String) : Bool :=
  store.any (fun r => r.message_id == some messageId && r.platform == some platform)

/-- The row `saveToSupabase` inserts. -/
def mkRow (nowIso : String) (inp : SaveInput) : PendingAction :=
  { sender := some inp.sender, summary := some inp.summary, url := some inp.url,
    platform := some inp.platform, message_id := some inp.messageId,
    created_at := some nowIso }

/-- `saveToSupabase({sender, summary, url, platform, messageId})`: check the
duplicate gate on `(messageId, platform)` first, else insert.  `nowIso` is
`new Date().toISOString()`.  An insert error would throw; the storage model
here does not fail. -/
def saveToSupabase (nowIso : String) (store : List PendingAction) (inp : SaveInput) :
    List PendingAction × SaveResult :=
  if isDuplicate store inp.messageId inp.platform then
    (store, SaveResult.skipped "duplicate")
  else
    (store ++ [mkRow nowIso inp], SaveResult.saved)

end ServerJS

/-! ### The multi-user server (`src/unnamed/part_001`) -/

namespace MultiUser

def EXCLUDED_LABELS : List String :=
  ["CATEGORY_PROMOTIONS", "CATEGORY_SOCIAL", "CATEGORY_UPDATES",
   "CATEGORY_FORUMS", "SPAM", "TRASH"]

/-- `shouldIncludeEmail(senderEmail, labelIds)`: drop when any excluded
label is present, else keep only `INBOX` messages. -/
def shouldIncludeEmail (senderEmail : String) (labelIds : List String) : Bool :=
  match EXCLUDED_LABELS.find? (fun l => labelIds.contains l) with
  | some _ => false
  | none => labelIds.contains "INBOX"

/-- `isDuplicate(messageLink, platform)`: falsy `messageLink` returns false;
otherwise select rows with `message_link = messageLink` and
`platform_tag = platform`. -/
def isDuplicate (store : List PendingAction) (messageLink platform : String) : Bool :=
  if messageLink = "" then false
  else store.any (fun r => r.message_link == some messageLink && r.platform_tag == some platform)

/-- The row this server inserts: note that no `message_id` (and no
`platform`) column is written, so `message_id` stays NULL. -/
def mkRow (inp : SaveInput) : PendingAction :=
  { task_text := some (inp.sender ++ ": " ++ inp.summary),
    platform_tag := some inp.platform, sender_name := some inp.sender,
    message_link := some inp.url, user_id := some inp.user_id }

/-- `saveToSupabase({sender, summary, url, platform, messageId, user_id})`
with the insert's possible throw made explicit: the duplicate gate is
consulted on `(url, platform)` — the `messageId` argument is unused — and
`insertFails` injects a storage-layer insert error (which the source
rethrows). -/
def saveToSupabaseE (insertFails : Bool) (store : List PendingAction)
    (inp : SaveInput) : Except String (List PendingAction × SaveResult) :=
  if isDuplicate store inp.url inp.platform then
    Except.ok (store, SaveResult.skipped "duplicate")
  else if insertFails then Except.error "Supabase insert error"
  else Except.ok (store ++ [mkRow inp], SaveResult.saved)

/-- `saveToSupabase` when storage does not fail. -/
def saveToSupabase (store : List PendingAction) (inp : SaveInput) :
    List PendingAction × SaveResult :=
  if isDuplicate store inp.url inp.platform then
    (store, SaveResult.skipped "duplicate")
  else (store ++ [mkRow inp], SaveResult.saved)

/-- The per-message body shared by `/gmail/webhook` and `/gmail/sync`:
extract headers, parse the sender, apply the label filter (skipping yields
no record), else save with `summary = subject || '(No Subject)'`,
`url = createGmailLink(msg.id)`, `platform = 'gmail'` and
`messageId = headers.messageId || msg.id`. -/
def processGmailMessage (insertFails : Bool) (store : List PendingAction)
    (user_id : String) (msg : GmailMsg) :
    Except String (List PendingAction × Option SaveResult) :=
  let headers := extractEmailHeaders msg
  let senderName := parseSenderName headers.fromH
  if !shouldIncludeEmail headers.fromH msg.labelIds then
    Except.ok (store, none)
  else
    match saveToSupabaseE insertFails store
        { sender := senderName,
          summary := if headers.subject = "" then "(No Subject)" else headers.subject,
          url := createGmailLink msg.id, platform := "gmail",
          messageId := if headers.messageId = "" then msg.id else headers.messageId,
          user_id := user_id } with
    | Except.ok (s, r) => Except.ok (s, some r)
    | Except.error e => Except.error e

end MultiUser

/-! ### Slack signature verification (identical in both servers) -/

/-- Node `crypto.timingSafeEqual(a, b)`: throws `RangeError` on buffers of
different byte length, else constant-time equality. -/
def timingSafeEqual (a b : List Nat) : Except String Bool :=
  if a.length = b.length then Except.ok (a == b)
  else Except.error "RangeError: Input buffers must have the same byte length"

/-- The `mySignature` the verifier recomputes over a basestring:
`'v0=' + hmacSha256(secret, base).digest('hex')`. -/
def slackSigOver (secret base : String) : String :=
  "v0=" ++ hexOfBytes (hmacSha256 (utf8Bytes secret) (utf8Bytes base))

/-- Modelled from the spec: how the sending side computes a Slack request
signature — HMAC-SHA256 with the shared secret over
`"v0:{timestamp}:{raw-body}"`, where `raw-body` is the exact byte string
delivered on the wire.  (The repository contains no sender; this is the
protocol description from §4.2 of the spec.) -/
def specSlackSignature (secret timestamp rawBody : String) : String :=
  slackSigOver secret ("v0:" ++ timestamp ++ ":" ++ rawBody)

/-- The stale-timestamp test `parseInt(timestamp) < fiveMinutesAgo`:
`NaN` (`none`) compares false. -/
def staleTest (t : Option Int) (cutoff : Int) : Bool :=
  match t with
  | some n => n < cutoff
  | none => false

/-- `Math.floor(Date.now() / 1000) - 60 * 5` (`now` in milliseconds). -/
def fiveMinutesAgo (now : Nat) : Int :=
  ((now / 1000 : Nat) : Int) - 60 * 5

/-- The timestamp header as the string it is concatenated as: an absent
header is JavaScript `undefined`, which stringifies to `"undefined"` in
`'v0:' + timestamp + ':' + ...` and is `NaN` under `parseInt`. -/
def tsHeaderStr : Option String → String
  | some t => t
  | none => "undefined"

/-- `verifySlackSignature(req)`.  `now` is `Date.now()` in milliseconds,
`secret` is `process.env.SLACK_SIGNING_SECRET` (absent → skip verification),
`tsHeader`/`sigHeader` are the two Slack headers.
The basestring uses `JSON.stringify(req.body)` — the re-serialized parsed
body.  `Buffer.from(undefined)` throws a `TypeError`; `timingSafeEqual`
throws on length mismatch; both surface as `Except.error`. -/
def verifySlackSignature (now : Nat) (secret : Option String)
    (tsHeader sigHeader : Option String) (body : Json) : Except String Bool :=
  match secret with
  | none => Except.ok true
  | some slackSigningSecret =>
    if staleTest (parseIntJs (tsHeaderStr tsHeader)) (fiveMinutesAgo now) then
      Except.ok false
    else
      let mySignature :=
        slackSigOver slackSigningSecret
          ("v0:" ++ tsHeaderStr tsHeader ++ ":" ++ stringify body)
      match sigHeader with
      | none => Except.error "TypeError: argument must be a string or Buffer"
      | some signature =>
          timingSafeEqual (utf8Bytes mySignature) (utf8Bytes signature)

/-! ### The HTTP handlers of the multi-user server -/

/-- A response body: `res.send(text)` or `res.json(j)`. -/
inductive ResBody where
  | text : String → ResBody
  | json : Json → ResBody
deriving Repr

structure HttpResponse where
  status : Nat
  body : ResBody
deriving Repr

/-- Status as the provider sees it: an uncaught exception becomes the
Express default 500 error response. -/
def statusOf (r : Except String (HttpResponse × List PendingAction)) : Nat :=
  match r with
  | Except.ok (res, _) => res.status
  | Except.error _ => 500

namespace MultiUser

/-- A row of the `user_slack_tokens` table. -/
structure SlackToken where
  team_id : String
  user_id : String
  bot_token : String
deriving Repr, DecidableEq

/-- Environment of `POST /slack/webhook`: the clock, the configured secret,
the token table, the `users.info` profile lookup (`none` covers a failed
fetch, a non-ok response, and null names — every path that keeps the raw
user id), and an injected insert failure. -/
structure SlackEnv where
  now : Nat
  signingSecret : Option String
  slackTokens : List SlackToken
  profileName : String → String → Option String
  insertFails : Bool := false

/-- A request to `POST /slack/webhook`: the raw delivered body, the parsed
`req.body` (`express.json()` guarantees `jsonParse rawBody = some body`),
and the two Slack headers. -/
structure SlackReq where
  rawBody : String
  body : Json
  tsHeader : Option String
  sigHeader : Option String

/-- The `url_verification` reply `res.json({challenge: req.body.challenge})`
(`JSON.stringify` drops an undefined property). -/
def challengeReply (body : Json) : HttpResponse :=
  ⟨200, ResBody.json (Json.obj (match jget body "challenge" with
    | some v => [("challenge", v)]
    | none => []))⟩

/-- The event-processing tail of `POST /slack/webhook`, reached once the
signature check has passed: the DM branch (with its bot/subtype discard,
tenant lookup, sender resolution, truncation, and save inside a try/catch)
followed by the unconditional `res.status(200).send('OK')`. -/
def slackEventHandling (env : SlackEnv) (store : List PendingAction) (req : SlackReq) :
    Except String (HttpResponse × List PendingAction) :=
  let event := jget req.body "event"
  if jsStrEq (jget2 event "type") "message" && jsStrEq (jget2 event "channel_type") "im" then
    if jsTruthy (jget2 event "bot_id") || jsTruthy (jget2 event "subtype") then
      Except.ok (⟨200, ResBody.text "OK"⟩, store)
    else
      let teamId := jsDisplay (jget req.body "team_id")
      let channelId := jsDisplay (jget2 event "channel")
      let messageTs := jsDisplay (jget2 event "ts")
      let slackUserId := jsDisplay (jget2 event "user")
      let text := if jsTruthy (jget2 event "text") then jsDisplay (jget2 event "text")
        else "(No message text)"
      match env.slackTokens.find? (fun t => t.team_id = teamId) with
      | none => Except.ok (⟨200, ResBody.text "OK"⟩, store)
      | some tok =>
        let senderName := (env.profileName tok.bot_token slackUserId).getD slackUserId
        let summary := if jsLength text > 100 then jsSubstring text 100 ++ "..." else text
        match saveToSupabaseE env.insertFails store
            { sender := senderName, summary := summary,
              url := createSlackLink teamId channelId messageTs,
              platform := "slack",
              messageId := teamId ++ "-" ++ channelId ++ "-" ++ messageTs,
              user_id := tok.user_id } with
        | Except.ok (store', _) => Except.ok (⟨200, ResBody.text "OK"⟩, store')
        | Except.error _ => Except.ok (⟨200, ResBody.text "OK"⟩, store)
  else Except.ok (⟨200, ResBody.text "OK"⟩, store)

/-- `POST /slack/webhook`.  The `url_verification` echo precedes signature
verification; a verification throw propagates (no surrounding try/catch);
everything after a passed check is `slackEventHandling`. -/
def slackWebhook (env : SlackEnv) (store : List PendingAction) (req : SlackReq) :
    Except String (HttpResponse × List PendingAction) :=
  if jsStrEq (jget req.body "type") "url_verification" then
    Except.ok (challengeReply req.body, store)
  else
    match verifySlackSignature env.now env.signingSecret req.tsHeader req.sigHeader req.body with
    | Except.error e => Except.error e
    | Except.ok false => Except.ok (⟨401, ResBody.text "Invalid signature"⟩, store)
    | Except.ok true => slackEventHandling env store req

/-- Environment of `POST /gmail/webhook`: the Pub/Sub `message.data` field,
the outcome of base64+JSON decoding it, the `user_gmail_tokens` lookup by
email address, the Gmail API `messages.list` and `messages.get` calls
(each may throw), and an injected insert failure. -/
structure GmailEnv where
  bodyData : Option String
  decodedEmail : Except String String
  tokenByEmail : String → Option (String × String)
  listResult : Except String (List String)
  getMsg : String → Except String GmailMsg
  insertFails : Bool := false

/-- The webhook's message loop; on a throw the rows inserted so far remain
(the catch is outside the loop) and the flag records completion. -/
def gmailLoop (env : GmailEnv) (user_id : String) :
    List PendingAction → List String → List PendingAction × Bool
  | store, [] => (store, true)
  | store, id :: rest =>
    match env.getMsg id with
    | Except.error _ => (store, false)
    | Except.ok msg =>
      match processGmailMessage env.insertFails store user_id msg with
      | Except.error _ => (store, false)
      | Except.ok (store', _) => gmailLoop env user_id store' rest

/-- `POST /gmail/webhook`: the entire body sits in one try/catch whose
catch still acknowledges with `200 'Error logged'`. -/
def gmailWebhook (env : GmailEnv) (store : List PendingAction) :
    HttpResponse × List PendingAction :=
  match env.bodyData with
  | none => (⟨200, ResBody.text "No data"⟩, store)
  | some d =>
    if d = "" then (⟨200, ResBody.text "No data"⟩, store)
    else
      match env.decodedEmail with
      | Except.error _ => (⟨200, ResBody.text "Error logged"⟩, store)
      | Except.ok emailAddress =>
        match env.tokenByEmail emailAddress with
        | none => (⟨200, ResBody.text "OK"⟩, store)
        | some (user_id, _refresh_token) =>
          match env.listResult with
          | Except.error _ => (⟨200, ResBody.text "Error logged"⟩, store)
          | Except.ok ids =>
            match gmailLoop env user_id store ids with
            | (store', true) => (⟨200, ResBody.text "OK"⟩, store')
            | (store', false) => (⟨200, ResBody.text "Error logged"⟩, store')

end MultiUser

/-! ### Structural lemmas about the crypto primitives -/

theorem wordBytes_length (x : Nat) : (wordBytes x).length = 4 := by
  simp [wordBytes]

theorem sha256_length (msg : List Nat) : (sha256 msg).length = 32 := by
  simp [sha256, sha256Digest, wordBytes]

theorem hmacSha256_length (key msg : List Nat) : (hmacSha256 key msg).length = 32 := by
  simp [hmacSha256, sha256_length]

theorem sha256_bytes_lt (msg : List Nat) : ∀ b ∈ sha256 msg, b < 256 := by
  intro b hb
  simp [sha256, sha256Digest, wordBytes] at hb
  rcases hb with h | h | h | h | h | h | h | h <;>
    rcases h with h | h | h | h <;> omega

theorem hmacSha256_bytes_lt (key msg : List Nat) : ∀ b ∈ hmacSha256 key msg, b < 256 := by
  intro b hb
  exact sha256_bytes_lt _ b hb

theorem hexDigit_ascii (n : Nat) (h : n < 16) : (hexDigit n).toNat < 128 := by
  interval_cases n <;> decide

theorem utf8Char_ascii (c : Char) (h : c.toNat < 128) : utf8Char c = [c.toNat] := by
  simp [utf8Char, h]

theorem utf8List_append (l1 l2 : List Char) :
    utf8List (l1 ++ l2) = utf8List l1 ++ utf8List l2 := by
  induction l1 with
  | nil => simp [utf8List]
  | cons c cs ih => simp [utf8List, ih]

/-- The character list `hexOfBytes` builds. -/
theorem utf8List_hex_chars (bs : List Nat) (h : ∀ b ∈ bs, b < 256) :
    (utf8List (bs.foldr (fun b acc => hexDigit (b / 16) :: hexDigit (b % 16) :: acc) [])).length =
      2 * bs.length := by
  induction bs with
  | nil => simp [utf8List]
  | cons b rest ih =>
    have hb : b < 256 := h b (List.mem_cons_self b rest)
    have h1 : b / 16 < 16 := Nat.div_lt_of_lt_mul (by omega)
    have h2 : b % 16 < 16 := Nat.mod_lt _ (by omega)
    simp only [List.foldr_cons, utf8List,
      utf8Char_ascii _ (hexDigit_ascii _ h1), utf8Char_ascii _ (hexDigit_ascii _ h2)]
    have := ih (fun x hx => h x (List.mem_cons_of_mem b hx))
    simp [this, List.length_cons]
    omega

/-- The recomputed signature `'v0=' + hmac.digest('hex')` is always 67
UTF-8 bytes: `v0=` plus 64 hexadecimal digits. -/
theorem slackSigOver_utf8_length (secret base : String) :
    (utf8Bytes (slackSigOver secret base)).length = 67 := by
  have hlist : (slackSigOver secret base).toList =
      "v0=".toList ++ (hexOfBytes (hmacSha256 (utf8Bytes secret) (utf8Bytes base))).toList :=
    String.data_append _ _
  rw [utf8Bytes, hlist, utf8List_append, List.length_append]
  have hhex : (utf8List (hexOfBytes (hmacSha256 (utf8Bytes secret) (utf8Bytes base))).toList).length = 64 := by
    show (utf8List ((hmacSha256 (utf8Bytes secret) (utf8Bytes base)).foldr
      (fun b acc => hexDigit (b / 16) :: hexDigit (b % 16) :: acc) [])).length = 64
    rw [utf8List_hex_chars _ (hmacSha256_bytes_lt _ _), hmacSha256_length]
  rw [hhex]
  rfl

/-! ### Lemmas about the `parseSenderName` regular expressions -/

theorem matchAngleRest_cons_space (c : Char) (l : List Char) (hs : jsSpace c = true) :
    matchAngleRest (c :: l) = matchAngleRest l := by
  unfold matchAngleRest
  rw [List.dropWhile_cons, hs]
  simp

theorem matchAngleRest_head_ne (c : Char) (l : List Char) (hs : jsSpace c = false)
    (hne : c ≠ '<') : matchAngleRest (c :: l) = false := by
  unfold matchAngleRest
  rw [List.dropWhile_cons, hs]
  simp only [Bool.false_eq_true, if_false]
  split
  · next tail heq =>
      exact absurd (List.cons.inj heq).1 hne
  · rfl

/-- `\s*<.+>$` cannot match while a non-space, non-`<` character (here the
closing quote) still lies ahead of the first `<`. -/
theorem matchAngleRest_quote (N : List Char) (tail : List Char) (hN : '<' ∉ N) :
    matchAngleRest (N ++ '"' :: tail) = false := by
  induction N with
  | nil =>
      exact matchAngleRest_head_ne '"' tail (by decide) (by decide)
  | cons c cs ih =>
      have hc : c ≠ '<' := fun h => hN (h ▸ List.mem_cons_self c cs)
      have hcs : '<' ∉ cs := fun h => hN (List.mem_cons_of_mem c h)
      rw [List.cons_append]
      by_cases hs : jsSpace c
      · rw [matchAngleRest_cons_space c _ hs]
        exact ih hcs
      · exact matchAngleRest_head_ne c _ (Bool.not_eq_true _ ▸ eq_false_of_ne_true hs) hc

theorem matchAngleRest_space_angle (A : List Char) (hA : A ≠ []) (hnl : '\n' ∉ A) :
    matchAngleRest (' ' :: '<' :: (A ++ ['>'])) = true := by
  rw [matchAngleRest_cons_space ' ' _ (by decide)]
  unfold matchAngleRest
  rw [List.dropWhile_cons]
  simp only [show jsSpace '<' = false from rfl, Bool.false_eq_true, if_false]
  have hlen : 2 ≤ (A ++ ['>']).length := by
    rcases A with _ | ⟨a, as⟩
    · exact absurd rfl hA
    · simp
  have hlast : (A ++ ['>']).getLast? = some '>' := List.getLast?_concat _
  have hdrop : (A ++ ['>']).dropLast = A := List.dropLast_concat
  rw [hlast, hdrop]
  simp only [hlen, decide_eq_true_eq, beq_self_eq_true, Bool.and_eq_true, List.all_eq_true]
  exact ⟨⟨trivial, trivial⟩, fun c hc h => hnl (h ▸ hc)⟩

/-- Advancing the lazy group through the quoted display name: every
intermediate remainder still starts inside the name or at the closing
quote, so the first successful split is exactly at the closing quote. -/
theorem lazyGroupSearch_name (A : List Char) (hA : A ≠ []) (hAnl : '\n' ∉ A) :
    ∀ (N : List Char) (acc : List Char), '<' ∉ N → '\n' ∉ N →
      lazyGroupSearch acc (N ++ '"' :: ' ' :: '<' :: (A ++ ['>'])) =
        some (acc ++ N ++ ['"']) := by
  intro N
  induction N with
  | nil =>
      intro acc _ _
      rw [List.nil_append, lazyGroupSearch]
      rw [if_neg (by decide : ¬('"' = '\n'))]
      simp only [matchAngleRest_space_angle A hA hAnl, if_true]
      simp
  | cons c cs ih =>
      intro acc hlt hnl
      have hc : ¬(c = '\n') := fun h => hnl (h ▸ List.mem_cons_self c cs)
      have hcs_lt : '<' ∉ cs := fun h => hlt (List.mem_cons_of_mem c h)
      have hcs_nl : '\n' ∉ cs := fun h => hnl (List.mem_cons_of_mem c h)
      rw [List.cons_append, lazyGroupSearch]
      rw [if_neg hc]
      simp only [matchAngleRest_quote cs _ hcs_lt, Bool.false_eq_true, if_false]
      rw [ih (acc ++ [c]) hcs_lt hcs_nl]
      simp

/-- With no `<` anywhere, `\s*<.+>$` never matches. -/
theorem matchAngleRest_no_lt (cs : List Char) (h : '<' ∉ cs) :
    matchAngleRest cs = false := by
  induction cs with
  | nil => rfl
  | cons c l ih =>
      have hc : c ≠ '<' := fun hh => h (hh ▸ List.mem_cons_self c l)
      have hl : '<' ∉ l := fun hh => h (List.mem_cons_of_mem c hh)
      by_cases hs : jsSpace c
      · rw [matchAngleRest_cons_space c l hs]
        exact ih hl
      · exact matchAngleRest_head_ne c l (eq_false_of_ne_true hs) hc

/-- With no `<` in the header, `/^(.+?)\s*<.+>$/` fails. -/
theorem lazyGroupSearch_no_lt (cs : List Char) (h : '<' ∉ cs) :
    ∀ acc, lazyGroupSearch acc cs = none := by
  induction cs with
  | nil => intro acc; rfl
  | cons c l ih =>
      intro acc
      have hl : '<' ∉ l := fun hh => h (List.mem_cons_of_mem c hh)
      unfold lazyGroupSearch
      by_cases hc : c = '\n'
      · rw [if_pos hc]
      · rw [if_neg hc, matchAngleRest_no_lt l hl]
        simp only [Bool.false_eq_true, if_false]
        exact ih hl _

/-- With no `<` in the header, `/<(.+)>/` fails. -/
theorem emailAngleMatch_no_lt (cs : List Char) (h : '<' ∉ cs) :
    emailAngleMatch cs = none := by
  induction cs with
  | nil => rfl
  | cons c l ih =>
      have hc : c ≠ '<' := fun hh => h (hh ▸ List.mem_cons_self c l)
      have hl : '<' ∉ l := fun hh => h (List.mem_cons_of_mem c hh)
      rw [emailAngleMatch, if_neg hc]
      exact ih hl

theorem toList_append (s t : String) : (s ++ t).toList = s.toList ++ t.toList :=
  String.data_append s t

theorem quoted_toList (name addr : String) :
    ("\"" ++ name ++ "\" <" ++ addr ++ ">").toList
      = '"' :: (name.toList ++ '"' :: ' ' :: '<' :: (addr.toList ++ ['>'])) := by
  rw [toList_append, toList_append, toList_append, toList_append]
  show ['"'] ++ name.toList ++ ['"', ' ', '<'] ++ addr.toList ++ ['>'] = _
  simp

/-- A quoted display name before an angle-bracketed address: the first
regex captures `"name"`, and the code strips quotes and trims. -/
theorem parseSenderName_quoted (name addr : String)
    (hn2 : '<' ∉ name.toList) (hn3 : '\n' ∉ name.toList)
    (ha1 : addr.toList ≠ []) (ha2 : '\n' ∉ addr.toList) :
    parseSenderName ("\"" ++ name ++ "\" <" ++ addr ++ ">") =
      jsTrim (removeQuotes name) := by
  have hlist := quoted_toList name addr
  have hne : ("\"" ++ name ++ "\" <" ++ addr ++ ">") ≠ "" := by
    intro h
    have h2 := congrArg String.toList h
    rw [hlist] at h2
    simp at h2
  unfold parseSenderName
  rw [if_neg hne, hlist]
  rw [lazyGroupSearch]
  rw [if_neg (by decide : ¬('"' = '\n'))]
  simp only [matchAngleRest_quote name.toList _ hn2, Bool.false_eq_true, if_false]
  simp only [List.nil_append]
  rw [lazyGroupSearch_name addr.toList ha1 ha2 name.toList ['"'] hn2 hn3]
  show jsTrim (removeQuotes (String.mk (['"'] ++ name.toList ++ ['"']))) = _
  congr 1
  simp [removeQuotes]

/-- A header with no `<` matches neither regex and is returned whole. -/
theorem parseSenderName_no_angle (header : String) (h1 : header ≠ "")
    (h2 : '<' ∉ header.toList) : parseSenderName header = header := by
  unfold parseSenderName
  rw [if_neg h1, lazyGroupSearch_no_lt header.toList h2 [],
    emailAngleMatch_no_lt header.toList h2]

/-! ### Characterizations of the two duplicate gates -/

theorem serverjs_isDuplicate_iff (store : List PendingAction) (m p : String) :
    ServerJS.isDuplicate store m p = true ↔
      ∃ r ∈ store, r.message_id = some m ∧ r.platform = some p := by
  simp [ServerJS.isDuplicate, List.any_eq_true]

theorem multiuser_isDuplicate_iff (store : List PendingAction) (m p : String) :
    MultiUser.isDuplicate store m p = true ↔
      m ≠ "" ∧ ∃ r ∈ store, r.message_link = some m ∧ r.platform_tag = some p := by
  by_cases h : m = "" <;> simp [MultiUser.isDuplicate, h, List.any_eq_true]

/-! ### Claim theorems -/

/-- C2 (amended): in the single-user server `isDuplicate(messageId, platform)`
queries for an existing `pending_actions` row with `message_id = messageId`
and `platform = platform`, and `saveToSupabase` consults it on exactly that
pair before every insert.  In the multi-user server the gate instead queries
`message_link = messageLink` and `platform_tag = platform` (returning false
for a falsy link), and `saveToSupabase` calls it with the message's deep-link
`url`, not the `messageId` dedup key, before every insert. -/
theorem c2_dedup_gate_amended (store : List PendingAction) (m p nowIso : String)
    (inp : SaveInput) :
    (ServerJS.isDuplicate store m p = true ↔
      ∃ r ∈ store, r.message_id = some m ∧ r.platform = some p) ∧
    (ServerJS.saveToSupabase nowIso store inp =
      if ∃ r ∈ store, r.message_id = some inp.messageId ∧ r.platform = some inp.platform
      then (store, SaveResult.skipped "duplicate")
      else (store ++ [ServerJS.mkRow nowIso inp], SaveResult.saved)) ∧
    (MultiUser.isDuplicate store m p = true ↔
      m ≠ "" ∧ ∃ r ∈ store, r.message_link = some m ∧ r.platform_tag = some p) ∧
    (MultiUser.saveToSupabase store inp =
      if inp.url ≠ "" ∧ ∃ r ∈ store, r.message_link = some inp.url ∧ r.platform_tag = some inp.platform
      then (store, SaveResult.skipped "duplicate")
      else (store ++ [MultiUser.mkRow inp], SaveResult.saved)) := by
  refine ⟨serverjs_isDuplicate_iff store m p, ?_, multiuser_isDuplicate_iff store m p, ?_⟩
  · unfold ServerJS.saveToSupabase
    by_cases h : ServerJS.isDuplicate store inp.messageId inp.platform = true
    · rw [if_pos h, if_pos ((serverjs_isDuplicate_iff store _ _).mp h)]
    · rw [if_neg (by simpa using h),
        if_neg (fun hc => h ((serverjs_isDuplicate_iff store _ _).mpr hc))]
  · unfold MultiUser.saveToSupabase
    by_cases h : MultiUser.isDuplicate store inp.url inp.platform = true
    · rw [if_pos h, if_pos ((multiuser_isDuplicate_iff store _ _).mp h)]
    · rw [if_neg (by simpa using h),
        if_neg (fun hc => h ((multiuser_isDuplicate_iff store _ _).mpr hc))]

/-- A `pending_actions` row for dedup key `<k1@mail>` on `gmail`, with
`message_id` populated as the single-user server writes it. -/
def c2SeedRow : PendingAction :=
  { sender := some "Bob", summary := some "hi",
    url := some "https://mail.google.com/mail/u/0/#inbox/g1",
    platform := some "gmail", message_id := some "<k1@mail>",
    created_at := some "T0" }

/-- C2 counterexample: a `pending_actions` row recording dedup key
`<k1@mail>` on platform `gmail` exists (with `message_id` set, as the
single-user server writes it), yet the multi-user gate answers false for
that dedup key — it matches `message_link`/`platform_tag`, not
`message_id` — and `saveToSupabase` (which passes the deep-link URL, not
the dedup key) inserts a second record for the same `(dedup_key, platform)`. -/
theorem c2_gate_queries_message_link_not_message_id :
    (MultiUser.isDuplicate [c2SeedRow] "<k1@mail>" "gmail" = false) ∧
    (∃ r ∈ [c2SeedRow],
       r.message_id = some "<k1@mail>" ∧ r.platform = some "gmail") ∧
    ((MultiUser.saveToSupabase [c2SeedRow]
      { sender := "Bob", summary := "hi",
        url := "https://mail.google.com/mail/u/0/#inbox/g2",
        platform := "gmail", messageId := "<k1@mail>", user_id := "u1" }).2
      = SaveResult.saved) := by
  refine ⟨rfl, ⟨c2SeedRow, List.mem_singleton_self _, rfl, rfl⟩, rfl⟩

/-- C1 (code evaluated at the failing input): two Gmail events with the same
`Message-ID` dedup key `<abc@mail>` but different provider-internal ids
`m1`/`m2`.  The multi-user server persists **two** `PendingAction` rows for
them (its gate keys on the deep link, and it stores no `message_id` at all,
so the `(message_id, platform)` unique index cannot intervene); redelivering
the identical event is skipped with reason `duplicate`.  The single-user
server keeps a single row for the same pair, as the claim demands. -/
theorem c1_multiuser_persists_two_rows_for_same_dedup_key :
    (extractEmailHeaders ⟨"m1", ["INBOX"],
        [("From", "Bob <bob@co.com>"), ("Subject", "Q3 report"),
         ("Message-ID", "<abc@mail>")]⟩).messageId = "<abc@mail>" ∧
    (extractEmailHeaders ⟨"m2", ["INBOX"],
        [("From", "Bob <bob@co.com>"), ("Subject", "Q3 report"),
         ("Message-ID", "<abc@mail>")]⟩).messageId = "<abc@mail>" ∧
    MultiUser.processGmailMessage false [] "u1"
        ⟨"m1", ["INBOX"],
         [("From", "Bob <bob@co.com>"), ("Subject", "Q3 report"),
          ("Message-ID", "<abc@mail>")]⟩ =
      Except.ok ([{ task_text := some "Bob: Q3 report", platform_tag := some "gmail",
                    sender_name := some "Bob",
                    message_link := some "https://mail.google.com/mail/u/0/#inbox/m1",
                    user_id := some "u1" }], some SaveResult.saved) ∧
    MultiUser.processGmailMessage false
        [{ task_text := some "Bob: Q3 report", platform_tag := some "gmail",
           sender_name := some "Bob",
           message_link := some "https://mail.google.com/mail/u/0/#inbox/m1",
           user_id := some "u1" }] "u1"
        ⟨"m2", ["INBOX"],
         [("From", "Bob <bob@co.com>"), ("Subject", "Q3 report"),
          ("Message-ID", "<abc@mail>")]⟩ =
      Except.ok ([{ task_text := some "Bob: Q3 report", platform_tag := some "gmail",
                    sender_name := some "Bob",
                    message_link := some "https://mail.google.com/mail/u/0/#inbox/m1",
                    user_id := some "u1" },
                  { task_text := some "Bob: Q3 report", platform_tag := some "gmail",
                    sender_name := some "Bob",
                    message_link := some "https://mail.google.com/mail/u/0/#inbox/m2",
                    user_id := some "u1" }], some SaveResult.saved) ∧
    MultiUser.processGmailMessage false
        [{ task_text := some "Bob: Q3 report", platform_tag := some "gmail",
           sender_name := some "Bob",
           message_link := some "https://mail.google.com/mail/u/0/#inbox/m1",
           user_id := some "u1" },
         { task_text := some "Bob: Q3 report", platform_tag := some "gmail",
           sender_name := some "Bob",
           message_link := some "https://mail.google.com/mail/u/0/#inbox/m2",
           user_id := some "u1" }] "u1"
        ⟨"m2", ["INBOX"],
         [("From", "Bob <bob@co.com>"), ("Subject", "Q3 report"),
          ("Message-ID", "<abc@mail>")]⟩ =
      Except.ok ([{ task_text := some "Bob: Q3 report", platform_tag := some "gmail",
                    sender_name := some "Bob",
                    message_link := some "https://mail.google.com/mail/u/0/#inbox/m1",
                    user_id := some "u1" },
                  { task_text := some "Bob: Q3 report", platform_tag := some "gmail",
                    sender_name := some "Bob",
                    message_link := some "https://mail.google.com/mail/u/0/#inbox/m2",
                    user_id := some "u1" }], some (SaveResult.skipped "duplicate")) ∧
    (ServerJS.saveToSupabase "T0"
      (ServerJS.saveToSupabase "T0" []
        { sender := "Bob", summary := "Q3 report",
          url := "https://mail.google.com/mail/u/0/#inbox/m1",
          platform := "gmail", messageId := "<abc@mail>" }).1
      { sender := "Bob", summary := "Q3 report",
        url := "https://mail.google.com/mail/u/0/#inbox/m2",
        platform := "gmail", messageId := "<abc@mail>" }).2
      = SaveResult.skipped "duplicate" ∧
    ((ServerJS.saveToSupabase "T0"
      (ServerJS.saveToSupabase "T0" []
        { sender := "Bob", summary := "Q3 report",
          url := "https://mail.google.com/mail/u/0/#inbox/m1",
          platform := "gmail", messageId := "<abc@mail>" }).1
      { sender := "Bob", summary := "Q3 report",
        url := "https://mail.google.com/mail/u/0/#inbox/m2",
        platform := "gmail", messageId := "<abc@mail>" }).1).length = 1 := by
  exact ⟨rfl, rfl, rfl, rfl, rfl, rfl, rfl⟩

/-- Any label on the exclusion list that is present drops the message. -/
theorem shouldIncludeEmail_excluded (sender : String) (labels : List String)
    (l : String) (hmem : l ∈ MultiUser.EXCLUDED_LABELS)
    (hcon : labels.contains l = true) :
    MultiUser.shouldIncludeEmail sender labels = false := by
  unfold MultiUser.shouldIncludeEmail
  split
  · rfl
  · next hnone =>
      exfalso
      have hsome : (MultiUser.EXCLUDED_LABELS.find? (fun l' => labels.contains l')).isSome :=
        List.find?_isSome.mpr ⟨l, hmem, hcon⟩
      rw [hnone] at hsome
      exact absurd hsome (by decide)

/-- C5: the label filter keeps a message only if `INBOX` is among its
labels; any of the promotional/social/forum/spam/trash category labels
drops it; and a message additionally labelled `CATEGORY_PROMOTIONS` —
`INBOX` or not — produces no `PendingAction` in the Gmail pipeline. -/
theorem c5_label_filter (sender uid : String) (labels : List String) (l : String)
    (store : List PendingAction) (msg : GmailMsg) (fails : Bool) :
    (MultiUser.shouldIncludeEmail sender labels = true → labels.contains "INBOX" = true) ∧
    (l ∈ ["CATEGORY_PROMOTIONS", "CATEGORY_SOCIAL", "CATEGORY_FORUMS", "SPAM", "TRASH"] →
      labels.contains l = true → MultiUser.shouldIncludeEmail sender labels = false) ∧
    (msg.labelIds.contains "CATEGORY_PROMOTIONS" = true →
      MultiUser.processGmailMessage fails store uid msg = Except.ok (store, none)) := by
  refine ⟨?_, ?_, ?_⟩
  · intro h1
    unfold MultiUser.shouldIncludeEmail at h1
    split at h1
    · exact absurd h1 (by decide)
    · exact h1
  · intro hl hcon
    have hmem : l ∈ MultiUser.EXCLUDED_LABELS := by fin_cases hl <;> decide
    exact shouldIncludeEmail_excluded sender labels l hmem hcon
  · intro h
    have hfalse := shouldIncludeEmail_excluded
      (extractEmailHeaders msg).fromH msg.labelIds "CATEGORY_PROMOTIONS" (by decide) h
    unfold MultiUser.processGmailMessage
    simp only [hfalse, Bool.not_false, if_true]

/-- C5 witness: an `INBOX` email additionally labelled
`CATEGORY_PROMOTIONS` is dropped and yields zero records. -/
theorem c5_label_filter_witness :
    MultiUser.shouldIncludeEmail "bob@co.com" ["INBOX", "CATEGORY_PROMOTIONS"] = false ∧
    MultiUser.processGmailMessage false [] "u1"
      ⟨"m9", ["INBOX", "CATEGORY_PROMOTIONS"],
       [("From", "Bob <bob@co.com>"), ("Subject", "Q3 report"),
        ("Message-ID", "<promo@mail>")]⟩ = Except.ok ([], none) := by
  constructor
  · exact (c5_label_filter "bob@co.com" "u1" ["INBOX", "CATEGORY_PROMOTIONS"]
      "CATEGORY_PROMOTIONS" [] ⟨"m9", [], []⟩ false).2.1 (by decide) (by decide)
  · exact (c5_label_filter "bob@co.com" "u1" [] "x" []
      ⟨"m9", ["INBOX", "CATEGORY_PROMOTIONS"],
       [("From", "Bob <bob@co.com>"), ("Subject", "Q3 report"),
        ("Message-ID", "<promo@mail>")]⟩ false).2.2 (by decide)

/-- C6: for a `From` header of the quoted form `"name" <addr>` (a
non-empty display name without `<` or newline, whose quote-stripped form
carries no outer whitespace, before a non-empty address), the parsed
sender is the display name with all quote characters stripped; and a
header containing no `<` (a bare address) is returned unchanged. -/
theorem c6_parse_sender_display_name (name addr header : String)
    (hn2 : '<' ∉ name.toList) (hn3 : '\n' ∉ name.toList)
    (htrim : jsTrim (removeQuotes name) = removeQuotes name)
    (ha1 : addr.toList ≠ []) (ha2 : '\n' ∉ addr.toList)
    (hh1 : header ≠ "") (hh2 : '<' ∉ header.toList) :
    parseSenderName ("\"" ++ name ++ "\" <" ++ addr ++ ">") = removeQuotes name ∧
    parseSenderName header = header := by
  constructor
  · rw [parseSenderName_quoted name addr hn2 hn3 ha1 ha2, htrim]
  · exact parseSenderName_no_angle header hh1 hh2

/-- C6 witness: the spec's two examples. -/
theorem c6_parse_sender_display_name_witness :
    parseSenderName "\"Ada Lovelace\" <ada@x.com>" = "Ada Lovelace" ∧
    parseSenderName "ada@x.com" = "ada@x.com" := by
  have h := c6_parse_sender_display_name "Ada Lovelace" "ada@x.com" "ada@x.com"
    (by decide) (by decide) (by decide) (by decide) (by decide) (by decide) (by decide)
  constructor
  · have e1 : "\"Ada Lovelace\" <ada@x.com>" =
        "\"" ++ "Ada Lovelace" ++ "\" <" ++ "ada@x.com" ++ ">" := rfl
    rw [e1, h.1]
    rfl
  · exact h.2

/-- C7: a direct-message event that passes signature verification but
carries a truthy `bot_id` or a truthy `subtype` is discarded before any
normalization: the handler acknowledges `200 'OK'` and the store is
unchanged (zero `PendingAction` records). -/
theorem c7_bot_or_subtype_discarded (env : MultiUser.SlackEnv)
    (store : List PendingAction) (req : MultiUser.SlackReq)
    (hnotver : jsStrEq (jget req.body "type") "url_verification" = false)
    (hver : verifySlackSignature env.now env.signingSecret req.tsHeader
      req.sigHeader req.body = Except.ok true)
    (hmsg : jsStrEq (jget2 (jget req.body "event") "type") "message" = true)
    (him : jsStrEq (jget2 (jget req.body "event") "channel_type") "im" = true)
    (hbot : (jsTruthy (jget2 (jget req.body "event") "bot_id") ||
             jsTruthy (jget2 (jget req.body "event") "subtype")) = true) :
    MultiUser.slackWebhook env store req =
      Except.ok (⟨200, ResBody.text "OK"⟩, store) := by
  unfold MultiUser.slackWebhook
  rw [hnotver]
  simp only [Bool.false_eq_true, if_false]
  rw [hver]
  unfold MultiUser.slackEventHandling
  simp only [hmsg, him, Bool.and_self, if_true, hbot]

/-- C7 witness: a bot-authored DM (no signing secret configured, so
verification passes) leaves the store empty and is acknowledged 200. -/
theorem c7_bot_or_subtype_discarded_witness :
    MultiUser.slackWebhook ⟨1000000, none, [⟨"T1", "u1", "xoxb"⟩], fun _ _ => none, false⟩ []
      ⟨"", Json.obj [("type", Json.str "event_callback"), ("team_id", Json.str "T1"),
        ("event", Json.obj [("type", Json.str "message"), ("channel_type", Json.str "im"),
          ("channel", Json.str "C1"), ("ts", Json.str "111.222"),
          ("user", Json.str "U7"), ("text", Json.str "hello"),
          ("bot_id", Json.str "B99")])], none, none⟩ =
      Except.ok (⟨200, ResBody.text "OK"⟩, []) :=
  c7_bot_or_subtype_discarded _ _ _ rfl rfl rfl rfl rfl

/-- C9: a body of type `url_verification` is answered first: the challenge
token is echoed back verbatim as `{challenge}` with status 200, for every
environment — in particular with a signing secret configured and an absent
or arbitrary signature header, since the echo precedes verification. -/
theorem c9_url_verification_echo (env : MultiUser.SlackEnv)
    (store : List PendingAction) (req : MultiUser.SlackReq) (c : Json)
    (htype : jget req.body "type" = some (Json.str "url_verification"))
    (hch : jget req.body "challenge" = some c) :
    MultiUser.slackWebhook env store req =
      Except.ok (⟨200, ResBody.json (Json.obj [("challenge", c)])⟩, store) := by
  unfold MultiUser.slackWebhook
  rw [htype]
  simp [jsStrEq, MultiUser.challengeReply, hch]

/-- C9 witness: secret configured, no signature headers at all — the
challenge is still echoed with 200. -/
theorem c9_url_verification_echo_witness :
    MultiUser.slackWebhook ⟨999, some "topsecret", [], fun _ _ => none, false⟩ []
      ⟨"", Json.obj [("type", Json.str "url_verification"),
        ("challenge", Json.str "chal-123")], none, none⟩ =
      Except.ok (⟨200, ResBody.json (Json.obj [("challenge", Json.str "chal-123")])⟩, []) :=
  c9_url_verification_echo _ _ _ _ rfl rfl

/-- C4: with a signing secret configured, a parseable timestamp header older
than `Math.floor(Date.now()/1000) - 300` makes verification return false —
whatever signature is provided, valid included — and the webhook (away from
the `url_verification` echo) rejects with `401 'Invalid signature'`. -/
theorem c4_stale_timestamp_rejected (env : MultiUser.SlackEnv)
    (store : List PendingAction) (req : MultiUser.SlackReq)
    (sec ts : String) (n : Int)
    (hsec : env.signingSecret = some sec)
    (hts : req.tsHeader = some ts)
    (hn : parseIntJs ts = some n)
    (hstale : n < fiveMinutesAgo env.now)
    (hnotver : jsStrEq (jget req.body "type") "url_verification" = false) :
    verifySlackSignature env.now env.signingSecret req.tsHeader req.sigHeader req.body
      = Except.ok false ∧
    MultiUser.slackWebhook env store req =
      Except.ok (⟨401, ResBody.text "Invalid signature"⟩, store) := by
  have hv : verifySlackSignature env.now env.signingSecret req.tsHeader
      req.sigHeader req.body = Except.ok false := by
    rw [hsec, hts]
    unfold verifySlackSignature
    simp [tsHeaderStr, staleTest, hn, hstale]
  refine ⟨hv, ?_⟩
  unfold MultiUser.slackWebhook
  rw [hnotver]
  simp only [Bool.false_eq_true, if_false]
  rw [hv]

/-- C4 witness: timestamp `100` against a clock of `1000000` ms (cutoff
`700`), carrying the genuinely valid signature for its body — still 401. -/
theorem c4_stale_timestamp_rejected_witness :
    MultiUser.slackWebhook ⟨1000000, some "sec", [], fun _ _ => none, false⟩ []
      ⟨"\x7b\x7d", Json.obj [], some "100",
       some (slackSigOver "sec" ("v0:" ++ "100" ++ ":" ++ stringify (Json.obj [])))⟩ =
      Except.ok (⟨401, ResBody.text "Invalid signature"⟩, []) :=
  (c4_stale_timestamp_rejected _ _ _ "sec" "100" 100 rfl rfl (by decide)
    (by decide) (by decide)).2

/-- C8 (amended): the Gmail webhook acknowledges 200 on every path — missing
body data, undecodable notifications, unknown tenants, Gmail API failures,
filtered messages, and persistence failures alike.  The Slack webhook
answers 200 on the `url_verification` echo and on every processing outcome
(unknown tenant, non-DM or filtered events, profile-lookup and persistence
failures) once verification passes; it answers 401 exactly when
verification returns false; but when verification **throws** (missing or
wrong-length signature header under a configured secret) the exception is
uncaught and surfaces as the Express 500, which is neither a 200
acknowledgment nor a 401 signature rejection. -/
theorem c8_webhook_status_amended :
    (∀ (genv : MultiUser.GmailEnv) (gstore : List PendingAction),
      (MultiUser.gmailWebhook genv gstore).1.status = 200) ∧
    (∀ (env : MultiUser.SlackEnv) (store : List PendingAction) (req : MultiUser.SlackReq),
      statusOf (MultiUser.slackWebhook env store req) =
        if jsStrEq (jget req.body "type") "url_verification" then 200
        else
          match verifySlackSignature env.now env.signingSecret req.tsHeader
              req.sigHeader req.body with
          | Except.error _ => 500
          | Except.ok false => 401
          | Except.ok true => 200) := by
  constructor
  · intro genv gstore
    unfold MultiUser.gmailWebhook
    repeat' split
    all_goals rfl
  · intro env store req
    have hsek : ∃ s', MultiUser.slackEventHandling env store req =
        Except.ok (⟨200, ResBody.text "OK"⟩, s') := by
      unfold MultiUser.slackEventHandling
      dsimp only
      repeat' split
      all_goals exact ⟨_, rfl⟩
    unfold MultiUser.slackWebhook
    by_cases hv : jsStrEq (jget req.body "type") "url_verification" = true
    · simp [hv, statusOf, MultiUser.challengeReply]
    · rw [if_neg (by simpa using hv), if_neg (by simpa using hv)]
      rcases hver : verifySlackSignature env.now env.signingSecret req.tsHeader
          req.sigHeader req.body with e | b
      · rfl
      · rcases b with _ | _
        · rfl
        · obtain ⟨s', hs⟩ := hsek
          rw [hs]
          rfl

/-- C8 counterexample: with a signing secret configured, a fresh
event-callback request that simply lacks the signature header makes
`verifySlackSignature` throw; the exception is uncaught, so the provider
sees a 500 — an outcome that is neither a 200 acknowledgment nor a 401
signature rejection, contradicting the claimed dichotomy. -/
theorem c8_missing_signature_surfaces_500 :
    MultiUser.slackWebhook
        ⟨1700000000000, some "s3cr3t", [], fun _ _ => none, false⟩ []
        ⟨"\x7b\"type\":\"event_callback\"\x7d",
         Json.obj [("type", Json.str "event_callback")],
         some "1700000000", none⟩ =
      Except.error "TypeError: argument must be a string or Buffer" ∧
    statusOf (MultiUser.slackWebhook
        ⟨1700000000000, some "s3cr3t", [], fun _ _ => none, false⟩ []
        ⟨"\x7b\"type\":\"event_callback\"\x7d",
         Json.obj [("type", Json.str "event_callback")],
         some "1700000000", none⟩) = 500 :=
  ⟨rfl, rfl⟩

set_option maxRecDepth 10000

/-- The SHA-256 model matches the FIPS 180-4 test vector for `"abc"`. -/
theorem sha256_abc_test_vector :
    hexOfBytes (sha256 (utf8Bytes "abc")) =
      "ba7816bf8f01cfea414140de5dae2223b00361a396177a9cb410ff61f20015ad" := by
  decide

theorem timingSafeEqual_self (a : List Nat) : timingSafeEqual a a = Except.ok true := by
  simp [timingSafeEqual]

/-- C3 (amended): with a secret configured, a fresh timestamp and a
67-byte signature header, the verifier compares — via `timingSafeEqual`
over the UTF-8 buffers — the provided signature against
`'v0=' + HMAC-SHA256(secret, 'v0:' + timestamp + ':' + JSON.stringify(req.body)).digest('hex')`,
i.e. recomputed over the **re-serialized parsed body**, not the raw
delivered bytes; when the buffers differ the webhook rejects with 401. -/
theorem c3_signature_check_amended (env : MultiUser.SlackEnv)
    (store : List PendingAction) (req : MultiUser.SlackReq) (sec ts sig : String)
    (hsec : env.signingSecret = some sec)
    (hts : req.tsHeader = some ts)
    (hsig : req.sigHeader = some sig)
    (hfresh : staleTest (parseIntJs ts) (fiveMinutesAgo env.now) = false)
    (hlen : (utf8Bytes sig).length = 67)
    (hnotver : jsStrEq (jget req.body "type") "url_verification" = false) :
    verifySlackSignature env.now env.signingSecret req.tsHeader req.sigHeader req.body =
      Except.ok ((utf8Bytes (slackSigOver sec ("v0:" ++ ts ++ ":" ++ stringify req.body))
        == utf8Bytes sig)) ∧
    ((utf8Bytes (slackSigOver sec ("v0:" ++ ts ++ ":" ++ stringify req.body))
        == utf8Bytes sig) = false →
      MultiUser.slackWebhook env store req =
        Except.ok (⟨401, ResBody.text "Invalid signature"⟩, store)) := by
  have hv : verifySlackSignature env.now env.signingSecret req.tsHeader req.sigHeader req.body =
      Except.ok ((utf8Bytes (slackSigOver sec ("v0:" ++ ts ++ ":" ++ stringify req.body))
        == utf8Bytes sig)) := by
    rw [hsec, hts, hsig]
    unfold verifySlackSignature
    simp only [tsHeaderStr, hfresh, Bool.false_eq_true, if_false]
    unfold timingSafeEqual
    rw [if_pos (by rw [slackSigOver_utf8_length, hlen])]
  refine ⟨hv, fun hne => ?_⟩
  unfold MultiUser.slackWebhook
  rw [hnotver]
  simp only [Bool.false_eq_true, if_false]
  rw [hv, hne]

/-- C3 witness: a fresh request whose 67-byte signature is 64 zero hex
digits — not the recomputation — is rejected with 401. -/
theorem c3_signature_check_amended_witness :
    verifySlackSignature 1700000000000 (some "sec") (some "1700000000")
        (some "v0=0000000000000000000000000000000000000000000000000000000000000000")
        (Json.obj [("a", Json.num 1)]) =
      Except.ok ((utf8Bytes (slackSigOver "sec"
          ("v0:" ++ "1700000000" ++ ":" ++ stringify (Json.obj [("a", Json.num 1)])))
        == utf8Bytes "v0=0000000000000000000000000000000000000000000000000000000000000000")) ∧
    MultiUser.slackWebhook ⟨1700000000000, some "sec", [], fun _ _ => none, false⟩ []
        ⟨"\x7b\"a\":1\x7d", Json.obj [("a", Json.num 1)], some "1700000000",
         some "v0=0000000000000000000000000000000000000000000000000000000000000000"⟩ =
      Except.ok (⟨401, ResBody.text "Invalid signature"⟩, []) := by
  have h := c3_signature_check_amended
    ⟨1700000000000, some "sec", [], fun _ _ => none, false⟩ []
    ⟨"\x7b\"a\":1\x7d", Json.obj [("a", Json.num 1)], some "1700000000",
     some "v0=0000000000000000000000000000000000000000000000000000000000000000"⟩
    "sec" "1700000000"
    "v0=0000000000000000000000000000000000000000000000000000000000000000"
    rfl rfl rfl (by decide) (by decide) (by decide)
  exact ⟨h.1, h.2 (by decide)⟩

/-- C3 counterexample: a signature computed over the byte string
`{"a":1}` while the delivered raw body is `{"a": 1}` (a different byte
string with the same parse) is **accepted**: the verifier hashes
`JSON.stringify(req.body)`, which collapses the two, so the request is
answered 200 rather than rejected with 401. -/
theorem c3_reserialized_body_signature_accepted :
    jsonParse "\x7b\"a\": 1\x7d" = some (Json.obj [("a", Json.num 1)]) ∧
    "\x7b\"a\": 1\x7d" ≠ "\x7b\"a\":1\x7d" ∧
    stringify (Json.obj [("a", Json.num 1)]) = "\x7b\"a\":1\x7d" ∧
    verifySlackSignature 1700000000000 (some "sec") (some "1700000000")
        (some (specSlackSignature "sec" "1700000000" "\x7b\"a\":1\x7d"))
        (Json.obj [("a", Json.num 1)]) = Except.ok true ∧
    MultiUser.slackWebhook ⟨1700000000000, some "sec", [], fun _ _ => none, false⟩ []
        ⟨"\x7b\"a\": 1\x7d", Json.obj [("a", Json.num 1)], some "1700000000",
         some (specSlackSignature "sec" "1700000000" "\x7b\"a\":1\x7d")⟩ =
      Except.ok (⟨200, ResBody.text "OK"⟩, []) := by
  have hb : stringify (Json.obj [("a", Json.num 1)]) = "\x7b\"a\":1\x7d" := by decide
  have hv : verifySlackSignature 1700000000000 (some "sec") (some "1700000000")
      (some (specSlackSignature "sec" "1700000000" "\x7b\"a\":1\x7d"))
      (Json.obj [("a", Json.num 1)]) = Except.ok true := by
    unfold verifySlackSignature
    simp only [tsHeaderStr]
    rw [if_neg (by decide :
      ¬(staleTest (parseIntJs "1700000000") (fiveMinutesAgo 1700000000000) = true))]
    unfold specSlackSignature
    rw [hb]
    exact timingSafeEqual_self _
  refine ⟨rfl, by decide, hb, hv, ?_⟩
  unfold MultiUser.slackWebhook
  dsimp only
  rw [if_neg (by decide :
    ¬(jsStrEq (jget (Json.obj [("a", Json.num 1)]) "type") "url_verification" = true))]
  rw [hv]
  rfl

/-- C10 (amended): with a signing secret configured and a request that
passes the freshness check (timestamp within the window or unparseable),
`verifySlackSignature` throws instead of returning false when the
signature header is absent (`Buffer.from(undefined)` raises `TypeError`)
or when its UTF-8 byte length differs from the 67 bytes of the recomputed
`'v0=' + 64 hex digits` (`timingSafeEqual` raises `RangeError`); in both
cases the exception escapes `POST /slack/webhook` uncaught, so the request
is not cleanly rejected with a 401.  (A request that fails the freshness
check never reaches these throws: it returns false and yields a clean
401, as the counterexample records.) -/
theorem c10_throw_on_missing_or_mislength_signature (env : MultiUser.SlackEnv)
    (store : List PendingAction) (req : MultiUser.SlackReq) (sec : String)
    (hsec : env.signingSecret = some sec)
    (hfresh : staleTest (parseIntJs (tsHeaderStr req.tsHeader)) (fiveMinutesAgo env.now) = false)
    (hnotver : jsStrEq (jget req.body "type") "url_verification" = false) :
    (req.sigHeader = none →
      verifySlackSignature env.now env.signingSecret req.tsHeader req.sigHeader req.body =
        Except.error "TypeError: argument must be a string or Buffer" ∧
      MultiUser.slackWebhook env store req =
        Except.error "TypeError: argument must be a string or Buffer") ∧
    (∀ sig : String, req.sigHeader = some sig → (utf8Bytes sig).length ≠ 67 →
      verifySlackSignature env.now env.signingSecret req.tsHeader req.sigHeader req.body =
        Except.error "RangeError: Input buffers must have the same byte length" ∧
      MultiUser.slackWebhook env store req =
        Except.error "RangeError: Input buffers must have the same byte length") := by
  constructor
  · intro hnone
    have hv : verifySlackSignature env.now env.signingSecret req.tsHeader req.sigHeader req.body =
        Except.error "TypeError: argument must be a string or Buffer" := by
      rw [hsec, hnone]
      unfold verifySlackSignature
      simp only [hfresh, Bool.false_eq_true, if_false]
    refine ⟨hv, ?_⟩
    unfold MultiUser.slackWebhook
    rw [hnotver]
    simp only [Bool.false_eq_true, if_false]
    rw [hv]
  · intro sig hsig hlen
    have hv : verifySlackSignature env.now env.signingSecret req.tsHeader req.sigHeader req.body =
        Except.error "RangeError: Input buffers must have the same byte length" := by
      rw [hsec, hsig]
      unfold verifySlackSignature
      simp only [hfresh, Bool.false_eq_true, if_false]
      unfold timingSafeEqual
      rw [if_neg (fun heq => hlen (by rw [← heq, slackSigOver_utf8_length]))]
    refine ⟨hv, ?_⟩
    unfold MultiUser.slackWebhook
    rw [hnotver]
    simp only [Bool.false_eq_true, if_false]
    rw [hv]

/-- C10 witness: a fresh event-callback request with the signature header
absent, and another whose signature is the 8-byte string `shortsig`, both
surface as uncaught exceptions rather than 401 responses. -/
theorem c10_throw_on_missing_or_mislength_signature_witness :
    MultiUser.slackWebhook ⟨2000000000000, some "hush", [], fun _ _ => none, false⟩ []
      ⟨"\x7b\x7d", Json.obj [("type", Json.str "event_callback")], some "2000000000", none⟩ =
      Except.error "TypeError: argument must be a string or Buffer" ∧
    MultiUser.slackWebhook ⟨2000000000000, some "hush", [], fun _ _ => none, false⟩ []
      ⟨"\x7b\x7d", Json.obj [("type", Json.str "event_callback")], some "2000000000",
       some "shortsig"⟩ =
      Except.error "RangeError: Input buffers must have the same byte length" := by
  constructor
  · exact ((c10_throw_on_missing_or_mislength_signature
      ⟨2000000000000, some "hush", [], fun _ _ => none, false⟩ []
      ⟨"\x7b\x7d", Json.obj [("type", Json.str "event_callback")], some "2000000000", none⟩
      "hush" rfl (by decide) (by decide)).1 rfl).2
  · exact ((c10_throw_on_missing_or_mislength_signature
      ⟨2000000000000, some "hush", [], fun _ _ => none, false⟩ []
      ⟨"\x7b\x7d", Json.obj [("type", Json.str "event_callback")], some "2000000000",
       some "shortsig"⟩
      "hush" rfl (by decide) (by decide)).2 "shortsig" rfl (by decide)).2

/-- C10 counterexample: the claim's "whenever" fails — the stale-timestamp
check precedes both throwing paths, so a request with a stale timestamp
**and** a missing signature header makes `verifySlackSignature` return
false (no exception), and the webhook cleanly rejects it with 401. -/
theorem c10_stale_missing_signature_cleanly_401 :
    verifySlackSignature 1000000 (some "sec") (some "99") none
        (Json.obj [("type", Json.str "event_callback")]) = Except.ok false ∧
    MultiUser.slackWebhook ⟨1000000, some "sec", [], fun _ _ => none, false⟩ []
        ⟨"\x7b\x7d", Json.obj [("type", Json.str "event_callback")], some "99", none⟩ =
      Except.ok (⟨401, ResBody.text "Invalid signature"⟩, []) :=
  ⟨rfl, rfl⟩
